import Mathlib

/-!
Verification of the DNS-monitoring core of this repository
(src/dns-monitoring/device-mapper.py and src/dns-monitoring/dns-traffic-analyzer.py).

The Python data is JSON throughout, so the embedding works over a small JSON
value type `JValue`.  Python dicts are insertion-ordered association lists
(`JObj`); `setKey` models `d[k] = v` (update in place, append if new) and
`lookupKey` models `d.get(k)` / `k in d`.  Exceptions that the Python code can
raise and that matter to the claims are modelled with `Except PyErr`.

The one behaviour that is not a function of the program text alone is the
iteration order of a Python `set` of strings (`list(device_domains[ip])` in
device-mapper.py line 123/134): CPython enumerates a set in hash order, which
is randomized per process.  The embedding therefore keeps each per-client
domain set as the list of its elements in first-insertion order and takes the
enumeration that `list(...)` performs as an explicit parameter `enum`,
constrained (where a theorem needs it) to produce a permutation of the set's
elements.
-/

/-- JSON values, as produced by Python's json.loads / consumed by json.dump. -/
inductive JValue where
  | null : JValue
  | bool : Bool → JValue
  | num : Int → JValue
  | str : String → JValue
  | arr : List JValue → JValue
  | obj : List (String × JValue) → JValue

/-- A JSON object body: a Python dict, i.e. an insertion-ordered key-value list. -/
abbrev JObj := List (String × JValue)

/-- The Python exceptions the modelled code can raise. -/
inductive PyErr where
  | attributeError : PyErr
  | typeError : PyErr
  | keyError : PyErr
deriving DecidableEq

/-- Dict lookup, first (and in Python only) binding of the key. -/
def lookupKey : JObj → String → Option JValue
  | [], _ => none
  | (k', v) :: rest, k => if k' = k then some v else lookupKey rest k

/-- Dict item assignment d[k] = v: overwrites in place if the key exists
(keeping its position), otherwise appends, exactly as a Python dict does. -/
def setKey : JObj → String → JValue → JObj
  | [], k, v => [(k, v)]
  | (k', v') :: rest, k, v =>
      if k' = k then (k, v) :: rest else (k', v') :: setKey rest k v

/-- Python d.get(k, default). -/
def pyGetD (o : JObj) (k : String) (d : JValue) : JValue :=
  (lookupKey o k).getD d

/-- Python len() on a JSON value (dict, list or string; otherwise TypeError). -/
def pyLen : JValue → Except PyErr Nat
  | .obj f => .ok f.length
  | .arr l => .ok l.length
  | .str s => .ok s.length
  | _ => .error .typeError

/-- Substring scan over the character list of a string. -/
def hasSubstr (pat : List Char) : List Char → Bool
  | [] => pat.isEmpty
  | c :: rest => pat.isPrefixOf (c :: rest) || hasSubstr pat rest

/-- Substring test, modelling the Python expression pat in s for strings
(used only with the non-empty literal "QUERY"). -/
def strContains (s pat : String) : Bool :=
  hasSubstr pat.data s.data

/-- Python membership test needle in v for the value shapes json.loads can
produce: substring test on strings, element test on lists, key test on dicts,
TypeError on numbers, booleans and null. -/
def pyInTest (needle : String) (v : JValue) : Except PyErr Bool :=
  match v with
  | .str s => .ok (strContains s needle)
  | .arr xs => .ok (xs.any fun x => match x with | .str s => decide (s = needle) | _ => false)
  | .obj fs => .ok (fs.any fun p => decide (p.1 = needle))
  | _ => .error .typeError

/-- Splitting a character list at every dot, as Python str.split(".") does. -/
def splitDots : List Char → List Char → List String
  | [], acc => [String.mk acc.reverse]
  | c :: rest, acc =>
      if c = '.' then String.mk acc.reverse :: splitDots rest []
      else splitDots rest (c :: acc)

/-- Python ip.split(".")[-1], the last octet of a dotted-quad string. -/
def lastOctet (ip : String) : String :=
  (splitDots ip.data []).getLastD ""

/-- One parsed DNS query, the query_info dict built by
DNSTrafficAnalyzer.parse_log_line (dns-traffic-analyzer.py lines 36-42). -/
structure QueryInfo where
  timestamp : JValue
  client_ip : String
  query_type : String
  domain : String
  level : JValue

/-- DNSTrafficAnalyzer.parse_log_line (dns-traffic-analyzer.py lines 21-52).
The input line is given as its json.loads result (`none` for a line that is
not valid JSON, in which case the JSONDecodeError is caught and the function
falls through to return None).  `regexSearch` abstracts
re.search(pattern, message) for the query pattern; on a match it yields the
four captured groups (client ip, resolver info, query type, domain).
A decoded value that is not a dict has no .get attribute, so
log_entry.get("message", "") raises AttributeError, which the code does not
catch; QUERY in a non-string message raises TypeError inside the membership
test or when handed to re.search. -/
def parse_log_line (regexSearch : String → Option (String × String × String × String))
    (line : Option JValue) : Except PyErr (Option QueryInfo) :=
  match line with
  | none => .ok none
  | some entry =>
    match entry with
    | .obj fields =>
      match pyInTest "QUERY" (pyGetD fields "message" (.str "")) with
      | .error e => .error e
      | .ok false => .ok none
      | .ok true =>
        match pyGetD fields "message" (.str "") with
        | .str message =>
          match regexSearch message with
          | some (cip, _rinfo, qtype, domain) =>
              .ok (some { timestamp := pyGetD fields "time" (.str "")
                          client_ip := cip
                          query_type := qtype
                          domain := domain
                          level := pyGetD fields "level" (.str "info") })
          | none => .ok none
        | _ => .error .typeError
    | _ => .error .attributeError

/-- The line loop of DNSTrafficAnalyzer.analyze_log_file (dns-traffic-analyzer.py
lines 58-61), collecting self.queries.  An exception raised by parse_log_line
propagates (only FileNotFoundError of the enclosing open is caught). -/
def analyze_log_file (regexSearch : String → Option (String × String × String × String)) :
    List (Option JValue) → Except PyErr (List QueryInfo)
  | [] => .ok []
  | line :: rest =>
    match parse_log_line regexSearch line with
    | .error e => .error e
    | .ok q =>
      match analyze_log_file regexSearch rest with
      | .error e => .error e
      | .ok qs => .ok (match q with | some qi => qi :: qs | none => qs)

/-- DeviceMapper.add_device (device-mapper.py lines 61-70): unconditionally
assigns a fresh five-field record to self.data["devices"][ip], where `now` is
datetime.now().strftime of the wall clock at the call. -/
def add_device (now : String) (devices : JObj)
    (ip name device_type category description : String) : JObj :=
  setKey devices ip (.obj
    [("name", .str name),
     ("type", .str device_type),
     ("category", .str category),
     ("description", .str description),
     ("added", .str now)])

/-- Read of the per-client domain set device_domains[ip] in
DeviceMapper.analyze_dns_log: a defaultdict(set), so a missing client yields
the empty set.  The set is kept as the list of its elements in first-insertion
order; see the file comment for how list(...) enumeration is handled. -/
def domsOf (domains : List (String × List String)) (ip : String) : List String :=
  match domains.find? (fun p => p.1 = ip) with
  | some p => p.2
  | none => []

/-- The two item assignments of DeviceMapper.analyze_dns_log lines 122-123
(and identically lines 133-134):
self.data["devices"][ip]["query_count"] = count and
self.data["devices"][ip]["common_domains"] = list(device_domains[ip])[:5].
Subscripting a present but non-dict record raises TypeError, an absent key
KeyError; `enum` is the set enumeration performed by list(...). -/
def set_activity_fields (enum : List String → List String)
    (domains : List (String × List String)) (devices : JObj)
    (ip : String) (count : Nat) : Except PyErr JObj :=
  match lookupKey devices ip with
  | some (.obj f) =>
      let f := setKey f "query_count" (.num count)
      let f := setKey f "common_domains"
        (.arr (((enum (domsOf domains ip)).take 5).map JValue.str))
      .ok (setKey devices ip (.obj f))
  | some _ => .error .typeError
  | none => .error .keyError

/-- One iteration of the update loop of DeviceMapper.analyze_dns_log
(lines 120-134): a registered ip gets its query_count / common_domains
assigned; an unregistered ip is first created with add_device and then gets
the same two assignments. -/
def analyze_dns_log_step (now : String) (enum : List String → List String)
    (domains : List (String × List String)) (devices : JObj)
    (ip : String) (count : Nat) : Except PyErr JObj :=
  match lookupKey devices ip with
  | some _ => set_activity_fields enum domains devices ip count
  | none =>
      set_activity_fields enum domains
        (add_device now devices ip
          ("Auto-detected-" ++ lastOctet ip) "Unknown" "Unknown"
          ("Auto-detected from DNS logs with " ++ toString count ++ " queries"))
        ip count

/-- The reconciliation phase of DeviceMapper.analyze_dns_log (lines 119-144):
iterate over device_activity.items() (insertion order, first appearance of
each client in the log).  The loop body has no exception handling of its own;
a raise propagates to the except at line 142, which leaves the updates already
applied in place and returns False, so the pair carries the final devices dict
and the method's boolean result. -/
def analyze_dns_log_update (now : String) (enum : List String → List String)
    (domains : List (String × List String)) :
    JObj → List (String × Nat) → JObj × Bool
  | devices, [] => (devices, true)
  | devices, (ip, count) :: rest =>
    match analyze_dns_log_step now enum domains devices ip count with
    | .ok d => analyze_dns_log_update now enum domains d rest
    | .error _ => (devices, false)

/-- Field k of the device record at ip, when that record is a dict. -/
def deviceField (devices : JObj) (ip k : String) : Option JValue :=
  match lookupKey devices ip with
  | some (.obj f) => lookupKey f k
  | _ => none

/-- Predicate: the record under ip, if any, is a dict, so that the item
assignments of the update loop cannot raise on it. -/
def okAt (devices : JObj) (ip : String) : Prop :=
  ∀ v, lookupKey devices ip = some v → ∃ f, v = JValue.obj f

/-- DeviceMapper._create_empty_map (device-mapper.py lines 30-45). -/
def create_empty_map (today : String) : JValue :=
  .obj
    [("metadata", .obj
        [("last_updated", .str today),
         ("network_range", .str "192.168.1.0/24"),
         ("total_devices", .num 0),
         ("source", .str "Control D DNS log analysis")]),
     ("devices", .obj []),
     ("network_insights", .obj
        [("device_types", .obj []),
         ("top_services", .obj []),
         ("activity_patterns", .obj [])])]

/-- DeviceMapper._load_device_map (device-mapper.py lines 18-28): the backing
file is given as its json.load result, `none` when the file is missing or not
valid JSON (FileNotFoundError / JSONDecodeError both fall back to the empty
map). -/
def load_device_map (today : String) (file : Option JValue) : JValue :=
  match file with
  | some v => v
  | none => create_empty_map today

/-- DeviceMapper.save_device_map (device-mapper.py lines 47-59): recompute
metadata["last_updated"] and metadata["total_devices"], then json.dump the
whole structure.  The result is the value written to the file (which is also
the new self.data).  The two metadata assignments are outside the try, so a
missing or non-dict "metadata" / "devices" raises to the caller. -/
def save_device_map (today : String) (data : JValue) : Except PyErr JValue :=
  match data with
  | .obj top =>
    match lookupKey top "metadata" with
    | some (.obj md) =>
      match lookupKey top "devices" with
      | some dv =>
        match pyLen dv with
        | .ok n =>
            let md := setKey md "last_updated" (.str today)
            let md := setKey md "total_devices" (.num n)
            .ok (.obj (setKey top "metadata" (.obj md)))
        | .error e => .error e
      | none => .error .keyError
    | some _ => .error .typeError
    | none => .error .keyError
  | _ => .error .typeError

/-- Contents of device_map_file over the course of save_device_map's write
(device-mapper.py lines 52-54): the file starts with its previous contents,
open(path, "w") truncates it to empty, then json.dump writes the new
serialization.  There is no temporary file and no rename. -/
def save_device_map_write_states (oldContent newContent : String) : List String :=
  [oldContent, "", newContent]

/-- Python v[:n] as used on info.get("common_domains", []) in
generate_routing_table: slices lists and strings, TypeError otherwise. -/
def pySlice (v : JValue) (n : Nat) : Except PyErr JValue :=
  match v with
  | .arr l => .ok (.arr (l.take n))
  | .str s => .ok (.str (s.take n))
  | _ => .error .typeError

/-- One routing_entry of DeviceMapper.generate_routing_table (lines 151-159).
A non-dict record has no .get attribute and raises AttributeError. -/
def routing_entry (ip : String) (info : JValue) : Except PyErr JObj :=
  match info with
  | .obj f =>
    match pySlice (pyGetD f "common_domains" (.arr [])) 3 with
    | .error e => .error e
    | .ok td =>
        .ok [("ip", .str ip),
             ("name", pyGetD f "name" (.str "Unknown")),
             ("type", pyGetD f "type" (.str "Unknown")),
             ("category", pyGetD f "category" (.str "Unknown")),
             ("activity", pyGetD f "query_count" (.num 0)),
             ("top_domains", td),
             ("last_seen", pyGetD f "added" (.str "Unknown"))]
  | _ => .error .attributeError

/-- Strict lexicographic comparison of two character lists by code point,
which is how Python compares strings. -/
def charListLt : List Char → List Char → Bool
  | [], [] => false
  | [], _ :: _ => true
  | _ :: _, [] => false
  | a :: as, b :: bs =>
      decide (a.toNat < b.toNat) || (decide (a.toNat = b.toNat) && charListLt as bs)

/-- Python a < b on strings. -/
def strLtb (a b : String) : Bool :=
  charListLt a.data b.data

/-- The order in which Python sorted() arranges the items of the devices dict:
tuples are compared on their first component, the ip string (second components
are never compared because dict keys are unique), so (ip, info) precedes
(ip2, info2) when ip2 is not strictly below ip. -/
def devLe (p q : String × JValue) : Prop :=
  strLtb q.1 p.1 = false

instance : DecidableRel devLe :=
  fun p q => inferInstanceAs (Decidable (strLtb q.1 p.1 = false))

instance : IsTotal (String × JValue) devLe := by
  constructor
  have asymm : ∀ a b : List Char, charListLt a b = true → charListLt b a = false := by
    intro a
    induction a with
    | nil => intro b _; cases b <;> simp [charListLt]
    | cons x xs ih =>
      intro b h
      cases b with
      | nil => simp [charListLt] at h
      | cons y ys =>
        simp only [charListLt, Bool.or_eq_true, Bool.and_eq_true, decide_eq_true_eq] at h
        simp only [charListLt, Bool.or_eq_false_iff, Bool.and_eq_false_iff,
          decide_eq_false_iff_not]
        rcases h with h | ⟨he, ht⟩
        · exact ⟨Nat.not_lt.mpr (Nat.le_of_lt h), Or.inl (Nat.ne_of_gt h)⟩
        · exact ⟨Nat.not_lt.mpr (Nat.le_of_eq he), Or.inr (ih ys ht)⟩
  intro p q
  rcases h : strLtb q.1 p.1 with _ | _
  · exact Or.inl h
  · exact Or.inr (asymm q.1.data p.1.data h)

instance : IsTrans (String × JValue) devLe := by
  constructor
  have key : ∀ c b a : List Char, charListLt c a = true → charListLt c b = false →
      charListLt b a = true := by
    intro c
    induction c with
    | nil =>
      intro b a hca hcb
      cases a with
      | nil => simp [charListLt] at hca
      | cons y ys =>
        cases b with
        | nil => simp [charListLt]
        | cons z zs => simp [charListLt] at hcb
    | cons x xs ih =>
      intro b a hca hcb
      cases a with
      | nil => simp [charListLt] at hca
      | cons y ys =>
        cases b with
        | nil => simp [charListLt]
        | cons z zs =>
          simp only [charListLt, Bool.or_eq_true, Bool.and_eq_true, decide_eq_true_eq] at hca ⊢
          simp only [charListLt, Bool.or_eq_false_iff, Bool.and_eq_false_iff,
            decide_eq_false_iff_not] at hcb
          obtain ⟨hzx, hz⟩ := hcb
          have hzlex : z.toNat ≤ x.toNat := Nat.not_lt.mp hzx
          rcases hca with h | ⟨he, ht⟩
          · exact Or.inl (Nat.lt_of_le_of_lt hzlex h)
          · rcases Nat.eq_or_lt_of_le hzlex with heq | hlt
            · rcases hz with hz | hz
              · exact absurd heq.symm hz
              · exact Or.inr ⟨heq.trans he, ih zs ys ht hz⟩
            · exact Or.inl (he ▸ hlt)
  intro p q r hpq hqr
  simp only [devLe, strLtb] at hpq hqr ⊢
  cases h : charListLt r.1.data p.1.data
  · rfl
  · exact absurd (key r.1.data q.1.data p.1.data h hqr) (by simp [hpq])

/-- Python sorted(self.data["devices"].items()). -/
def sortDevices (devices : JObj) : JObj :=
  List.insertionSort devLe devices

/-- DeviceMapper.generate_routing_table (device-mapper.py lines 146-162). -/
def generate_routing_table (devices : JObj) : Except PyErr (List JObj) :=
  (sortDevices devices).mapM (fun p => routing_entry p.1 p.2)

example : lastOctet "10.0.0.5" = "5" := rfl

example : strContains "abc QUERY def" "QUERY" = true := rfl

example : strContains "" "QUERY" = false := rfl

example : toString (7 : Nat) = "7" := rfl

example :
    (analyze_dns_log_update "t" (fun l => l) [("10.0.0.5", ["a.com"])] []
      [("10.0.0.5", 7)]).2 = true := rfl

example :
    deviceField (analyze_dns_log_update "t" (fun l => l) [("10.0.0.5", ["a.com"])] []
      [("10.0.0.5", 7)]).1 "10.0.0.5" "name" = some (.str "Auto-detected-5") := rfl

example :
    deviceField (analyze_dns_log_update "t" (fun l => l) [("10.0.0.5", ["a.com"])] []
      [("10.0.0.5", 7)]).1 "10.0.0.5" "description"
      = some (.str "Auto-detected from DNS logs with 7 queries") := rfl

example :
    sortDevices [("192.168.1.9", .obj []), ("192.168.1.10", .obj [])]
      = [("192.168.1.10", .obj []), ("192.168.1.9", .obj [])] := rfl

theorem lookupKey_setKey_self (o : JObj) (k : String) (v : JValue) :
    lookupKey (setKey o k v) k = some v := by
  induction o with
  | nil => simp [setKey, lookupKey]
  | cons p rest ih =>
    obtain ⟨k', v'⟩ := p
    by_cases h : k' = k
    · simp [setKey, h, lookupKey]
    · simp [setKey, h, lookupKey, ih]

theorem lookupKey_setKey_ne (o : JObj) (k k' : String) (v : JValue) (h : k' ≠ k) :
    lookupKey (setKey o k v) k' = lookupKey o k' := by
  have hkk : ¬ (k = k') := fun hh => h hh.symm
  induction o with
  | nil => simp [setKey, lookupKey, hkk]
  | cons p rest ih =>
    obtain ⟨a, b⟩ := p
    by_cases hak : a = k
    · subst hak
      simp [setKey, lookupKey, hkk]
    · by_cases hak' : a = k'
      · subst hak'
        simp [setKey, lookupKey, h]
      · simp [setKey, hak, lookupKey, hak', ih]

theorem setKey_setKey_same (o : JObj) (k : String) (v w : JValue) :
    setKey (setKey o k v) k w = setKey o k w := by
  induction o with
  | nil => simp [setKey]
  | cons p rest ih =>
    obtain ⟨a, b⟩ := p
    by_cases hak : a = k
    · simp [setKey, hak]
    · simp [setKey, hak, ih]

theorem set_activity_fields_obj (enum : List String → List String)
    (domains : List (String × List String)) (devices : JObj)
    (ip : String) (count : Nat) (f : JObj)
    (h : lookupKey devices ip = some (.obj f)) :
    set_activity_fields enum domains devices ip count
      = .ok (setKey devices ip (.obj (setKey (setKey f "query_count" (.num count))
          "common_domains" (.arr (((enum (domsOf domains ip)).take 5).map JValue.str))))) := by
  simp [set_activity_fields, h]

theorem analyze_dns_log_step_ok_shape (now : String) (enum : List String → List String)
    (domains : List (String × List String)) (devices : JObj)
    (ip : String) (count : Nat) (d : JObj)
    (h : analyze_dns_log_step now enum domains devices ip count = .ok d) :
    ∃ f, d = setKey devices ip (.obj f)
      ∧ lookupKey f "query_count" = some (.num count)
      ∧ lookupKey f "common_domains"
          = some (.arr (((enum (domsOf domains ip)).take 5).map JValue.str)) := by
  have hq : ("query_count" : String) ≠ "common_domains" := by decide
  cases hl : lookupKey devices ip with
  | none =>
    simp only [analyze_dns_log_step, add_device, hl] at h
    rw [set_activity_fields_obj _ _ _ _ _ _ (lookupKey_setKey_self _ _ _),
      setKey_setKey_same] at h
    simp only [Except.ok.injEq] at h
    subst h
    refine ⟨_, rfl, ?_, ?_⟩
    · rw [lookupKey_setKey_ne _ _ _ _ hq, lookupKey_setKey_self]
    · rw [lookupKey_setKey_self]
  | some v =>
    cases v with
    | obj f0 =>
      simp only [analyze_dns_log_step, hl] at h
      rw [set_activity_fields_obj _ _ _ _ _ _ hl] at h
      simp only [Except.ok.injEq] at h
      subst h
      refine ⟨_, rfl, ?_, ?_⟩
      · rw [lookupKey_setKey_ne _ _ _ _ hq, lookupKey_setKey_self]
      · rw [lookupKey_setKey_self]
    | null => simp [analyze_dns_log_step, hl, set_activity_fields] at h
    | bool b => simp [analyze_dns_log_step, hl, set_activity_fields] at h
    | num n => simp [analyze_dns_log_step, hl, set_activity_fields] at h
    | str s => simp [analyze_dns_log_step, hl, set_activity_fields] at h
    | arr l => simp [analyze_dns_log_step, hl, set_activity_fields] at h

theorem analyze_dns_log_step_lookup_ne (now : String) (enum : List String → List String)
    (domains : List (String × List String)) (devices : JObj)
    (ip : String) (count : Nat) (d : JObj) (j : String)
    (h : analyze_dns_log_step now enum domains devices ip count = .ok d) (hj : j ≠ ip) :
    lookupKey d j = lookupKey devices j := by
  obtain ⟨f, rfl, -, -⟩ := analyze_dns_log_step_ok_shape now enum domains devices ip count d h
  exact lookupKey_setKey_ne _ _ _ _ hj

theorem analyze_dns_log_step_ok_of_okAt (now : String) (enum : List String → List String)
    (domains : List (String × List String)) (devices : JObj)
    (ip : String) (count : Nat) (h : okAt devices ip) :
    ∃ d, analyze_dns_log_step now enum domains devices ip count = .ok d := by
  cases hl : lookupKey devices ip with
  | none =>
    simp only [analyze_dns_log_step, add_device, hl]
    exact ⟨_, set_activity_fields_obj _ _ _ _ _ _ (lookupKey_setKey_self _ _ _)⟩
  | some v =>
    obtain ⟨f, rfl⟩ := h v hl
    simp only [analyze_dns_log_step, hl]
    exact ⟨_, set_activity_fields_obj _ _ _ _ _ _ hl⟩

theorem analyze_dns_log_step_preserves_okAt (now : String) (enum : List String → List String)
    (domains : List (String × List String)) (devices : JObj)
    (ip : String) (count : Nat) (d : JObj)
    (h : analyze_dns_log_step now enum domains devices ip count = .ok d)
    (j : String) (hj : okAt devices j) : okAt d j := by
  obtain ⟨f, rfl, -, -⟩ := analyze_dns_log_step_ok_shape now enum domains devices ip count d h
  by_cases hji : j = ip
  · subst hji
    intro v hv
    rw [lookupKey_setKey_self] at hv
    exact ⟨f, (Option.some.inj hv).symm⟩
  · intro v hv
    rw [lookupKey_setKey_ne _ _ _ _ hji] at hv
    exact hj v hv

theorem analyze_dns_log_update_lookup_not_mem (now : String)
    (enum : List String → List String) (domains : List (String × List String)) :
    ∀ (activity : List (String × Nat)) (devices : JObj) (ip : String),
      ip ∉ activity.map Prod.fst →
      lookupKey (analyze_dns_log_update now enum domains devices activity).1 ip
        = lookupKey devices ip := by
  intro activity
  induction activity with
  | nil => intro devices ip _; rfl
  | cons p rest ih =>
    intro devices ip hip
    obtain ⟨k, c⟩ := p
    simp only [List.map_cons, List.mem_cons, not_or] at hip
    obtain ⟨hik, hrest⟩ := hip
    cases hstep : analyze_dns_log_step now enum domains devices k c with
    | ok d =>
      simp only [analyze_dns_log_update, hstep]
      rw [ih d ip hrest,
        analyze_dns_log_step_lookup_ne now enum domains devices k c d ip hstep hik]
    | error e =>
      simp only [analyze_dns_log_update, hstep]

theorem analyze_dns_log_update_ok (now : String)
    (enum : List String → List String) (domains : List (String × List String)) :
    ∀ (activity : List (String × Nat)) (devices : JObj),
      (∀ p ∈ activity, okAt devices p.1) →
      (analyze_dns_log_update now enum domains devices activity).2 = true := by
  intro activity
  induction activity with
  | nil => intro devices _; rfl
  | cons p rest ih =>
    intro devices hall
    obtain ⟨k, c⟩ := p
    obtain ⟨d, hd⟩ := analyze_dns_log_step_ok_of_okAt now enum domains devices k c
      (hall (k, c) (List.mem_cons_self _ _))
    simp only [analyze_dns_log_update, hd]
    exact ih d (fun q hq => analyze_dns_log_step_preserves_okAt now enum domains devices k c d
      hd q.1 (hall q (List.mem_cons_of_mem _ hq)))

theorem analyze_dns_log_update_result_at (now : String)
    (enum : List String → List String) (domains : List (String × List String)) :
    ∀ (activity : List (String × Nat)) (devices : JObj) (ip : String) (c : Nat),
      (activity.map Prod.fst).Nodup → (ip, c) ∈ activity →
      (analyze_dns_log_update now enum domains devices activity).2 = true →
      ∃ f, lookupKey (analyze_dns_log_update now enum domains devices activity).1 ip
            = some (.obj f)
        ∧ lookupKey f "query_count" = some (.num c)
        ∧ lookupKey f "common_domains"
            = some (.arr (((enum (domsOf domains ip)).take 5).map JValue.str)) := by
  intro activity
  induction activity with
  | nil => intro devices ip c _ hmem _; cases hmem
  | cons p rest ih =>
    intro devices ip c hnd hmem hsucc
    obtain ⟨k, ck⟩ := p
    cases hstep : analyze_dns_log_step now enum domains devices k ck with
    | error e =>
      simp only [analyze_dns_log_update, hstep] at hsucc
      cases hsucc
    | ok d =>
      simp only [analyze_dns_log_update, hstep] at hsucc ⊢
      rcases List.mem_cons.mp hmem with heq | hmem'
      · injection heq with h1 h2
        subst h1
        subst h2
        have hnotin : ip ∉ rest.map Prod.fst := by
          simp only [List.map_cons, List.nodup_cons] at hnd
          exact hnd.1
        rw [analyze_dns_log_update_lookup_not_mem now enum domains rest d ip hnotin]
        obtain ⟨f, rfl, hqc, hcd⟩ :=
          analyze_dns_log_step_ok_shape now enum domains devices ip c d hstep
        exact ⟨f, lookupKey_setKey_self _ _ _, hqc, hcd⟩
      · exact ih d ip c (by simp only [List.map_cons, List.nodup_cons] at hnd; exact hnd.2)
          hmem' hsucc

/-- C10: Reconciliation only touches devices whose IP was observed in the
run: for every registered device whose IP does not appear among the observed
client IPs of the AggregationResult, its entire record — hence every one of
its fields — is left unchanged by the update loop of
DeviceMapper.analyze_dns_log, on successful and on failed runs alike (the
loop never references the metadata or network_insights blocks at all). -/
theorem reconcile_frame_unobserved_ips (now : String)
    (enum : List String → List String) (domains : List (String × List String))
    (devices : JObj) (activity : List (String × Nat)) (ip : String)
    (h : ip ∉ activity.map Prod.fst) :
    lookupKey (analyze_dns_log_update now enum domains devices activity).1 ip
      = lookupKey devices ip :=
  analyze_dns_log_update_lookup_not_mem now enum domains activity devices ip h

theorem reconcile_frame_unobserved_ips_witness :
    lookupKey (analyze_dns_log_update "2025-01-01 00:00:00" (fun l => l)
        [("10.0.0.1", ["a.com"])]
        [("192.168.1.9", JValue.obj [("name", JValue.str "PC"), ("query_count", JValue.num 2)])]
        [("10.0.0.1", 3)]).1 "192.168.1.9"
      = lookupKey [("192.168.1.9", JValue.obj
          [("name", JValue.str "PC"), ("query_count", JValue.num 2)])] "192.168.1.9" :=
  reconcile_frame_unobserved_ips "2025-01-01 00:00:00" (fun l => l)
    [("10.0.0.1", ["a.com"])]
    [("192.168.1.9", JValue.obj [("name", JValue.str "PC"), ("query_count", JValue.num 2)])]
    [("10.0.0.1", 3)] "192.168.1.9" (by decide)

/-- C4: Reconciling an AggregationResult holding one unseen client IP
10.0.0.5 with 7 queries against an empty registry succeeds and creates
exactly one device, keyed 10.0.0.5, named "Auto-detected-5", with type and
category "Unknown", a description citing the discovery count, the creation
timestamp of the run, and query_count 7 — whatever the run's domain sets and
whatever order list() enumerates them in. -/
theorem reconcile_auto_provisions_unseen_ip (now : String)
    (enum : List String → List String) (domains : List (String × List String)) :
    (analyze_dns_log_update now enum domains [] [("10.0.0.5", 7)]).2 = true
    ∧ (analyze_dns_log_update now enum domains [] [("10.0.0.5", 7)]).1.length = 1
    ∧ deviceField (analyze_dns_log_update now enum domains [] [("10.0.0.5", 7)]).1
        "10.0.0.5" "name" = some (.str "Auto-detected-5")
    ∧ deviceField (analyze_dns_log_update now enum domains [] [("10.0.0.5", 7)]).1
        "10.0.0.5" "type" = some (.str "Unknown")
    ∧ deviceField (analyze_dns_log_update now enum domains [] [("10.0.0.5", 7)]).1
        "10.0.0.5" "category" = some (.str "Unknown")
    ∧ deviceField (analyze_dns_log_update now enum domains [] [("10.0.0.5", 7)]).1
        "10.0.0.5" "description"
        = some (.str "Auto-detected from DNS logs with 7 queries")
    ∧ deviceField (analyze_dns_log_update now enum domains [] [("10.0.0.5", 7)]).1
        "10.0.0.5" "added" = some (.str now)
    ∧ deviceField (analyze_dns_log_update now enum domains [] [("10.0.0.5", 7)]).1
        "10.0.0.5" "query_count" = some (.num 7) :=
  ⟨rfl, rfl, rfl, rfl, rfl, rfl, rfl, rfl⟩

/-- C5: Reconciliation overwrites rather than accumulates: on a successful
run, every observed registered IP ends with query_count equal to this run's
observed count regardless of its prior value, and reconciling the very same
AggregationResult a second time succeeds and again leaves query_count at
that count (7 stays 7, never 14). -/
theorem reconcile_overwrites_query_count (now now2 : String)
    (enum : List String → List String) (domains : List (String × List String))
    (devices : JObj) (activity : List (String × Nat)) (ip : String) (c : Nat)
    (hnd : (activity.map Prod.fst).Nodup) (hmem : (ip, c) ∈ activity)
    (hsucc : (analyze_dns_log_update now enum domains devices activity).2 = true) :
    deviceField (analyze_dns_log_update now enum domains devices activity).1 ip
        "query_count" = some (.num c)
    ∧ (analyze_dns_log_update now2 enum domains
        (analyze_dns_log_update now enum domains devices activity).1 activity).2 = true
    ∧ deviceField (analyze_dns_log_update now2 enum domains
        (analyze_dns_log_update now enum domains devices activity).1 activity).1 ip
        "query_count" = some (.num c) := by
  obtain ⟨f, hf, hqc, -⟩ :=
    analyze_dns_log_update_result_at now enum domains activity devices ip c hnd hmem hsucc
  have hokall : ∀ p ∈ activity,
      okAt (analyze_dns_log_update now enum domains devices activity).1 p.1 := by
    intro p hp
    obtain ⟨a, b⟩ := p
    obtain ⟨g, hg, -, -⟩ := analyze_dns_log_update_result_at now enum domains activity
      devices a b hnd hp hsucc
    intro v hv
    rw [hg] at hv
    exact ⟨g, (Option.some.inj hv).symm⟩
  have hsucc2 := analyze_dns_log_update_ok now2 enum domains activity _ hokall
  obtain ⟨f2, hf2, hqc2, -⟩ := analyze_dns_log_update_result_at now2 enum domains activity
    _ ip c hnd hmem hsucc2
  exact ⟨by simp [deviceField, hf, hqc], hsucc2, by simp [deviceField, hf2, hqc2]⟩

theorem reconcile_overwrites_query_count_witness :
    deviceField (analyze_dns_log_update "t1" (fun l => l) [("10.0.0.5", ["a.com"])] []
        [("10.0.0.5", 7)]).1 "10.0.0.5" "query_count" = some (.num 7)
    ∧ (analyze_dns_log_update "t2" (fun l => l) [("10.0.0.5", ["a.com"])]
        (analyze_dns_log_update "t1" (fun l => l) [("10.0.0.5", ["a.com"])] []
          [("10.0.0.5", 7)]).1 [("10.0.0.5", 7)]).2 = true
    ∧ deviceField (analyze_dns_log_update "t2" (fun l => l) [("10.0.0.5", ["a.com"])]
        (analyze_dns_log_update "t1" (fun l => l) [("10.0.0.5", ["a.com"])] []
          [("10.0.0.5", 7)]).1 [("10.0.0.5", 7)]).1 "10.0.0.5" "query_count"
        = some (.num 7) :=
  reconcile_overwrites_query_count "t1" "t2" (fun l => l) [("10.0.0.5", ["a.com"])] []
    [("10.0.0.5", 7)] "10.0.0.5" 7 (by decide) (by decide) rfl

/-- C6 counterexample: for a client that queried x.com then y.com in that
order, common_domains need not come out as ["x.com", "y.com"]: the code
builds it from list(device_domains[ip]), and reversal is a legitimate
enumeration of the two-element set (CPython's hash-randomized set order makes
no first-seen promise), under which the stored value is ["y.com", "x.com"]. -/
theorem common_domains_not_first_seen_cex :
    deviceField (analyze_dns_log_update "t" List.reverse
        [("192.168.1.10", ["x.com", "y.com"])] []
        [("192.168.1.10", 2)]).1 "192.168.1.10" "common_domains"
      = some (.arr [JValue.str "y.com", JValue.str "x.com"])
    ∧ JValue.arr [JValue.str "y.com", JValue.str "x.com"]
        ≠ JValue.arr [JValue.str "x.com", JValue.str "y.com"]
    ∧ (List.reverse ["x.com", "y.com"]).Perm ["x.com", "y.com"] :=
  ⟨rfl, by simp, by decide⟩

/-- C6 as amended: on a successful run, every observed client's
common_domains is replaced wholesale by the first 5 elements of the list()
enumeration of that client's run domain set — hence at most 5 domains, all
drawn from the run's per-client set, distinct when the set is, but in the
enumeration's order, not necessarily first-encountered order. -/
theorem common_domains_take5_of_enum (now : String)
    (enum : List String → List String) (domains : List (String × List String))
    (devices : JObj) (activity : List (String × Nat)) (ip : String) (c : Nat)
    (hnd : (activity.map Prod.fst).Nodup) (hmem : (ip, c) ∈ activity)
    (hperm : (enum (domsOf domains ip)).Perm (domsOf domains ip))
    (hsucc : (analyze_dns_log_update now enum domains devices activity).2 = true) :
    ∃ l, deviceField (analyze_dns_log_update now enum domains devices activity).1 ip
          "common_domains" = some (.arr (l.map JValue.str))
      ∧ l = (enum (domsOf domains ip)).take 5
      ∧ l.length ≤ 5
      ∧ (∀ d ∈ l, d ∈ domsOf domains ip)
      ∧ ((domsOf domains ip).Nodup → l.Nodup) := by
  obtain ⟨f, hf, -, hcd⟩ :=
    analyze_dns_log_update_result_at now enum domains activity devices ip c hnd hmem hsucc
  refine ⟨(enum (domsOf domains ip)).take 5, by simp [deviceField, hf, hcd], rfl, ?_, ?_, ?_⟩
  · exact List.length_take_le _ _
  · intro d hd
    exact hperm.mem_iff.mp (List.take_subset _ _ hd)
  · intro hnodup
    exact List.Nodup.sublist (List.take_sublist _ _) (hperm.nodup_iff.mpr hnodup)

theorem common_domains_take5_of_enum_witness :
    ∃ l, deviceField (analyze_dns_log_update "t" (fun l => l)
          [("192.168.1.10", ["x.com", "y.com"])] [] [("192.168.1.10", 2)]).1
          "192.168.1.10" "common_domains" = some (.arr (l.map JValue.str))
      ∧ l = ((fun l : List String => l) (domsOf [("192.168.1.10", ["x.com", "y.com"])]
          "192.168.1.10")).take 5
      ∧ l.length ≤ 5
      ∧ (∀ d ∈ l, d ∈ domsOf [("192.168.1.10", ["x.com", "y.com"])] "192.168.1.10")
      ∧ ((domsOf [("192.168.1.10", ["x.com", "y.com"])] "192.168.1.10").Nodup → l.Nodup) :=
  common_domains_take5_of_enum "t" (fun l => l) [("192.168.1.10", ["x.com", "y.com"])] []
    [("192.168.1.10", 2)] "192.168.1.10" 2 (by decide) (by decide) (by decide) rfl

/-- C7 counterexample: calling add_device a second time for an
already-registered IP does not leave the original creation timestamp in
place — the record's added field now carries the second call's clock value,
not the first's. -/
theorem add_device_restamps_added_cex :
    deviceField (add_device "2025-01-02 09:00:00"
        (add_device "2025-01-01 08:00:00" [] "192.168.1.100" "Smart TV" "Entertainment"
          "Media" "Living room TV")
        "192.168.1.100" "Smart TV" "Entertainment" "Media" "Living room TV")
      "192.168.1.100" "added" = some (.str "2025-01-02 09:00:00")
    ∧ JValue.str "2025-01-02 09:00:00" ≠ JValue.str "2025-01-01 08:00:00" :=
  ⟨rfl, by simp⟩

/-- C7 as amended: add_device is the code's upsert; it creates the device
when absent, but on an already-registered IP it replaces the entire record
with a fresh five-field one, stamping added with the time of this call — the
original added timestamp is not preserved, and previously set fields such as
query_count and common_domains are dropped. -/
theorem add_device_replaces_record (now : String) (devices : JObj)
    (ip name device_type category description : String) :
    lookupKey (add_device now devices ip name device_type category description) ip
      = some (.obj
        [("name", .str name), ("type", .str device_type), ("category", .str category),
         ("description", .str description), ("added", .str now)]) :=
  lookupKey_setKey_self _ _ _

/-- C8 counterexample: reconciling two observed IPs against a registry whose
record for the first one is malformed (a bare string instead of a dict)
aborts the whole run — the method returns False rather than success, and the
second observed IP is never updated or created. -/
theorem reconcile_aborts_on_bad_entry_cex :
    (analyze_dns_log_update "t" (fun l => l) [] [("10.0.0.1", JValue.str "corrupt")]
        [("10.0.0.1", 3), ("10.0.0.2", 4)])
      = ([("10.0.0.1", JValue.str "corrupt")], false)
    ∧ lookupKey (analyze_dns_log_update "t" (fun l => l) []
        [("10.0.0.1", JValue.str "corrupt")] [("10.0.0.1", 3), ("10.0.0.2", 4)]).1
        "10.0.0.2" = none :=
  ⟨rfl, rfl⟩

/-- C8 as amended: a single bad device entry makes reconciliation fail
outright: when an observed IP's record is present but not a dict, the item
assignment raises, the exception is caught only by the method-level handler,
so every observed IP after it in iteration order is left un-updated and the
run returns False (updates already applied earlier in the loop are kept,
since self.data is mutated in place). -/
theorem reconcile_bad_entry_aborts (now : String)
    (enum : List String → List String) (domains : List (String × List String))
    (devices : JObj) (ip : String) (c : Nat) (rest : List (String × Nat)) (v : JValue)
    (hv : lookupKey devices ip = some v) (hobj : ∀ f, v ≠ JValue.obj f) :
    analyze_dns_log_update now enum domains devices ((ip, c) :: rest)
      = (devices, false) := by
  have hstep : analyze_dns_log_step now enum domains devices ip c = .error .typeError := by
    cases v with
    | obj g => exact absurd rfl (hobj g)
    | null => simp [analyze_dns_log_step, hv, set_activity_fields]
    | bool b => simp [analyze_dns_log_step, hv, set_activity_fields]
    | num n => simp [analyze_dns_log_step, hv, set_activity_fields]
    | str s => simp [analyze_dns_log_step, hv, set_activity_fields]
    | arr l => simp [analyze_dns_log_step, hv, set_activity_fields]
  simp [analyze_dns_log_update, hstep]

theorem reconcile_bad_entry_aborts_witness :
    analyze_dns_log_update "t2" (fun l => l) [("10.0.0.1", ["b.com"])]
        [("10.0.0.1", JValue.num 42)] [("10.0.0.1", 5), ("10.0.0.3", 1)]
      = ([("10.0.0.1", JValue.num 42)], false) :=
  reconcile_bad_entry_aborts "t2" (fun l => l) [("10.0.0.1", ["b.com"])]
    [("10.0.0.1", JValue.num 42)] "10.0.0.1" 5 [("10.0.0.3", 1)] (JValue.num 42) rfl
    (fun _ h => JValue.noConfusion h)

/-- C2 counterexample: save_device_map writes the device-map file in place;
right after open(path, "w") truncates it, the file holds neither the
previously persisted registry nor the new one, so an interruption at that
point has already destroyed the old contents — there is no temporary file
and no rename. -/
theorem save_not_atomic_cex :
    ("" : String) ∈ save_device_map_write_states "old-registry-json" "new-registry-json"
    ∧ ("" : String) ≠ "old-registry-json"
    ∧ ("" : String) ≠ "new-registry-json" := by
  refine ⟨?_, by decide, by decide⟩
  simp [save_device_map_write_states]

/-- C2 as amended: save_device_map opens the target file in write mode,
truncating it, and writes the new serialization directly into it; whenever
the file previously held a non-empty registry (and the new serialization is
non-empty, as json.dump output always is), the write sequence passes through
a state that is neither the old nor the new contents, so an interruption
mid-write corrupts the previously persisted file — the save is not atomic. -/
theorem save_truncates_then_writes (old new : String)
    (h1 : old ≠ "") (h2 : new ≠ "") :
    ∃ s ∈ save_device_map_write_states old new, s ≠ old ∧ s ≠ new :=
  ⟨"", by simp [save_device_map_write_states], fun h => h1 h.symm, fun h => h2 h.symm⟩

theorem save_truncates_then_writes_witness :
    ∃ s ∈ save_device_map_write_states "old-registry-json" "new-registry-json",
      s ≠ "old-registry-json" ∧ s ≠ "new-registry-json" :=
  save_truncates_then_writes "old-registry-json" "new-registry-json" (by decide) (by decide)

/-- C1: save_device_map followed by load_device_map on the written value
reproduces the registry: the devices mapping of the loaded DeviceMap is
identical to the one saved (same keys, every per-device field equal), the
metadata fields last_updated and total_devices are recomputed to the save
date and the device count, and every other top-level and metadata entry is
unchanged. -/
theorem save_load_roundtrip (today today2 : String) (top md devs : JObj)
    (hmd : lookupKey top "metadata" = some (.obj md))
    (hdv : lookupKey top "devices" = some (.obj devs)) :
    ∃ file top' md',
      save_device_map today (.obj top) = .ok file
      ∧ load_device_map today2 (some file) = .obj top'
      ∧ lookupKey top' "devices" = some (.obj devs)
      ∧ lookupKey top' "metadata" = some (.obj md')
      ∧ lookupKey md' "last_updated" = some (.str today)
      ∧ lookupKey md' "total_devices" = some (.num devs.length)
      ∧ (∀ k, k ≠ "last_updated" → k ≠ "total_devices" →
          lookupKey md' k = lookupKey md k)
      ∧ (∀ k, k ≠ "metadata" → lookupKey top' k = lookupKey top k) := by
  have hsave : save_device_map today (.obj top)
      = .ok (.obj (setKey top "metadata"
          (.obj (setKey (setKey md "last_updated" (.str today))
            "total_devices" (.num devs.length))))) := by
    simp [save_device_map, hmd, hdv, pyLen]
  refine ⟨_, _, setKey (setKey md "last_updated" (.str today)) "total_devices"
      (.num devs.length), hsave, rfl, ?_, ?_, ?_, ?_, ?_, ?_⟩
  · rw [lookupKey_setKey_ne _ _ _ _ (by decide : ("devices" : String) ≠ "metadata")]
    exact hdv
  · exact lookupKey_setKey_self _ _ _
  · rw [lookupKey_setKey_ne _ _ _ _
      (by decide : ("last_updated" : String) ≠ "total_devices")]
    exact lookupKey_setKey_self _ _ _
  · exact lookupKey_setKey_self _ _ _
  · intro k h1 h2
    rw [lookupKey_setKey_ne _ _ _ _ h2, lookupKey_setKey_ne _ _ _ _ h1]
  · intro k hk
    rw [lookupKey_setKey_ne _ _ _ _ hk]

theorem save_load_roundtrip_witness :
    ∃ file top' md',
      save_device_map "2025-01-01" (.obj
        [("metadata", .obj
            [("last_updated", JValue.str "2024-12-31"),
             ("network_range", JValue.str "192.168.1.0/24"),
             ("total_devices", JValue.num 0),
             ("source", JValue.str "Control D DNS log analysis")]),
         ("devices", .obj
            [("10.0.0.5", JValue.obj
               [("name", JValue.str "Auto-detected-5"),
                ("query_count", JValue.num 7)])]),
         ("network_insights", .obj [])]) = .ok file
      ∧ load_device_map "2025-01-02" (some file) = .obj top'
      ∧ lookupKey top' "devices" = some (.obj
            [("10.0.0.5", JValue.obj
               [("name", JValue.str "Auto-detected-5"),
                ("query_count", JValue.num 7)])])
      ∧ lookupKey top' "metadata" = some (.obj md')
      ∧ lookupKey md' "last_updated" = some (.str "2025-01-01")
      ∧ lookupKey md' "total_devices" = some (.num 1)
      ∧ (∀ k, k ≠ "last_updated" → k ≠ "total_devices" →
          lookupKey md' k = lookupKey
            [("last_updated", JValue.str "2024-12-31"),
             ("network_range", JValue.str "192.168.1.0/24"),
             ("total_devices", JValue.num 0),
             ("source", JValue.str "Control D DNS log analysis")] k)
      ∧ (∀ k, k ≠ "metadata" → lookupKey top' k = lookupKey
            [("metadata", .obj
                [("last_updated", JValue.str "2024-12-31"),
                 ("network_range", JValue.str "192.168.1.0/24"),
                 ("total_devices", JValue.num 0),
                 ("source", JValue.str "Control D DNS log analysis")]),
             ("devices", .obj
                [("10.0.0.5", JValue.obj
                   [("name", JValue.str "Auto-detected-5"),
                    ("query_count", JValue.num 7)])]),
             ("network_insights", .obj [])] k) :=
  save_load_roundtrip "2025-01-01" "2025-01-02" _ _ _ rfl rfl

/-- C3 counterexample: a line that is valid JSON but decodes to a non-object
value (here the empty JSON array, which certainly lacks a message field) does
not come back as "no event": log_entry.get("message", "") has no .get on a
list, so parse_log_line raises AttributeError, and the exception escapes to
the caller instead of the line being dropped. -/
theorem parse_log_line_nonobject_raises_cex :
    parse_log_line (fun _ => none) (some (JValue.arr [])) = .error .attributeError
    ∧ (Except.error PyErr.attributeError
        ≠ (Except.ok none : Except PyErr (Option QueryInfo))) :=
  ⟨rfl, fun h => Except.noConfusion h⟩

/-- C3 as amended: for every line that is not valid JSON, and for every line
that decodes to a JSON object without a message field, parse_log_line yields
no event and raises nothing, and the analysis loop just moves on to the
remaining lines; but a line decoding to a non-object JSON value (array,
string, number, boolean or null) raises an uncaught AttributeError that
escapes to the caller and aborts the loop. -/
theorem parse_log_line_drops_bad_lines
    (regexSearch : String → Option (String × String × String × String))
    (line : Option JValue)
    (h : line = none ∨ ∃ fields, line = some (JValue.obj fields)
        ∧ lookupKey fields "message" = none) :
    parse_log_line regexSearch line = .ok none
    ∧ ∀ rest, analyze_log_file regexSearch (line :: rest)
        = analyze_log_file regexSearch rest := by
  have hQ : pyInTest "QUERY" (JValue.str "") = .ok false := rfl
  have hparse : parse_log_line regexSearch line = .ok none := by
    rcases h with rfl | ⟨fields, rfl, hnomsg⟩
    · rfl
    · simp [parse_log_line, pyGetD, hnomsg, hQ]
  refine ⟨hparse, fun rest => ?_⟩
  simp only [analyze_log_file, hparse]
  cases analyze_log_file regexSearch rest <;> rfl

theorem parse_log_line_drops_bad_lines_witness :
    parse_log_line (fun _ => none) (some (JValue.obj [("time", JValue.str "t")]))
        = .ok none
    ∧ ∀ rest, analyze_log_file (fun _ => none)
        (some (JValue.obj [("time", JValue.str "t")]) :: rest)
        = analyze_log_file (fun _ => none) rest :=
  parse_log_line_drops_bad_lines (fun _ => none)
    (some (JValue.obj [("time", JValue.str "t")]))
    (Or.inr ⟨[("time", JValue.str "t")], rfl, rfl⟩)

theorem except_mapM_forall₂ {α β ε : Type} (f : α → Except ε β) :
    ∀ (l : List α) (ys : List β), l.mapM f = .ok ys →
      List.Forall₂ (fun x y => f x = .ok y) l ys := by
  intro l
  induction l with
  | nil =>
    intro ys h
    simp only [List.mapM_nil] at h
    cases h
    exact List.Forall₂.nil
  | cons x xs ih =>
    intro ys h
    simp only [List.mapM_cons] at h
    cases hx : f x with
    | error e => rw [hx] at h; cases h
    | ok y =>
      rw [hx] at h
      cases hxs : xs.mapM f with
      | error e =>
        rw [hxs] at h
        cases h
      | ok ys' =>
        rw [hxs] at h
        cases h
        exact List.Forall₂.cons hx (ih ys' hxs)

theorem forall₂_mem_left {α β : Type} {P : α → β → Prop} :
    ∀ {l : List α} {ys : List β}, List.Forall₂ P l ys →
      ∀ x ∈ l, ∃ y ∈ ys, P x y := by
  intro l ys h
  induction h with
  | nil => intro x hx; cases hx
  | cons h₁ h₂ ih =>
    intro x hx
    rcases List.mem_cons.mp hx with rfl | hx'
    · exact ⟨_, List.mem_cons_self _ _, h₁⟩
    · obtain ⟨y, hy, hxy⟩ := ih x hx'
      exact ⟨y, List.mem_cons_of_mem _ hy, hxy⟩

theorem forall₂_mem_right {α β : Type} {P : α → β → Prop} :
    ∀ {l : List α} {ys : List β}, List.Forall₂ P l ys →
      ∀ y ∈ ys, ∃ x ∈ l, P x y := by
  intro l ys h
  induction h with
  | nil => intro y hy; cases hy
  | cons h₁ h₂ ih =>
    intro y hy
    rcases List.mem_cons.mp hy with rfl | hy'
    · exact ⟨_, List.mem_cons_self _ _, h₁⟩
    · obtain ⟨x, hx, hxy⟩ := ih y hy'
      exact ⟨x, List.mem_cons_of_mem _ hx, hxy⟩

theorem forall₂_pairwise {α β : Type} {R : α → α → Prop} {S : β → β → Prop}
    {P : α → β → Prop} :
    ∀ {l : List α} {ys : List β}, List.Forall₂ P l ys → List.Pairwise R l →
      (∀ a b x y, P a x → P b y → R a b → S x y) → List.Pairwise S ys := by
  intro l ys h
  induction h with
  | nil => intro _ _; exact List.Pairwise.nil
  | cons h₁ h₂ ih =>
    intro hp hcompat
    rcases List.pairwise_cons.mp hp with ⟨hall, hp'⟩
    refine List.Pairwise.cons ?_ (ih hp' hcompat)
    intro y hy
    obtain ⟨b, hb, hby⟩ := forall₂_mem_right h₂ y hy
    exact hcompat _ b _ y h₁ hby (hall b hb)

theorem routing_entry_fields (ip : String) (f : JObj) (e : JObj)
    (h : routing_entry ip (.obj f) = .ok e) :
    lookupKey e "ip" = some (.str ip)
    ∧ lookupKey e "name" = some (pyGetD f "name" (.str "Unknown"))
    ∧ lookupKey e "type" = some (pyGetD f "type" (.str "Unknown"))
    ∧ lookupKey e "category" = some (pyGetD f "category" (.str "Unknown"))
    ∧ lookupKey e "activity" = some (pyGetD f "query_count" (.num 0))
    ∧ (∀ l, lookupKey f "common_domains" = some (.arr l) →
        lookupKey e "top_domains" = some (.arr (l.take 3)))
    ∧ (lookupKey f "common_domains" = none →
        lookupKey e "top_domains" = some (.arr []))
    ∧ lookupKey e "last_seen" = some (pyGetD f "added" (.str "Unknown")) := by
  cases hts : pySlice (pyGetD f "common_domains" (.arr [])) 3 with
  | error er => simp [routing_entry, hts] at h
  | ok td =>
    simp only [routing_entry, hts] at h
    simp only [Except.ok.injEq] at h
    subst h
    refine ⟨?_, ?_, ?_, ?_, ?_, ?_, ?_, ?_⟩
    · simp [lookupKey]
    · simp [lookupKey]
    · simp [lookupKey]
    · simp [lookupKey]
    · simp [lookupKey]
    · intro l hl
      rw [show pyGetD f "common_domains" (.arr []) = .arr l from by simp [pyGetD, hl]] at hts
      simp only [pySlice, Except.ok.injEq] at hts
      subst hts
      simp [lookupKey]
    · intro hl
      rw [show pyGetD f "common_domains" (.arr []) = .arr [] from by simp [pyGetD, hl]] at hts
      simp only [pySlice, Except.ok.injEq] at hts
      subst hts
      simp [lookupKey]
    · simp [lookupKey]

theorem routing_entry_ok_ip (ip : String) (v : JValue) (e : JObj)
    (h : routing_entry ip v = .ok e) : lookupKey e "ip" = some (.str ip) := by
  cases v with
  | obj f => exact (routing_entry_fields ip f e h).1
  | null => simp [routing_entry] at h
  | bool b => simp [routing_entry] at h
  | num n => simp [routing_entry] at h
  | str s => simp [routing_entry] at h
  | arr l => simp [routing_entry] at h

/-- C9: generate_routing_table succeeds exactly on registries whose records
are all dicts, and then emits one entry per registered device, ordered by the
ip key ascending in code-point lexicographic string order (string sort of the
dotted-quad keys, not numeric octet sort), each entry carrying the device's
ip, name, type, category, activity count (query_count, defaulting to 0), the
first 3 of its common_domains (defaulting to none), and last_seen equal to
the device's added timestamp (defaulting to "Unknown"). -/
theorem generate_routing_table_spec (devs : JObj) (entries : List JObj)
    (hok : generate_routing_table devs = .ok entries) :
    entries.length = devs.length
    ∧ List.Pairwise (fun e1 e2 => ∀ s1 s2, lookupKey e1 "ip" = some (.str s1) →
        lookupKey e2 "ip" = some (.str s2) → strLtb s2 s1 = false) entries
    ∧ ∀ ip f, (ip, JValue.obj f) ∈ devs →
        ∃ e ∈ entries,
          lookupKey e "ip" = some (.str ip)
          ∧ lookupKey e "name" = some (pyGetD f "name" (.str "Unknown"))
          ∧ lookupKey e "type" = some (pyGetD f "type" (.str "Unknown"))
          ∧ lookupKey e "category" = some (pyGetD f "category" (.str "Unknown"))
          ∧ lookupKey e "activity" = some (pyGetD f "query_count" (.num 0))
          ∧ (∀ l, lookupKey f "common_domains" = some (.arr l) →
              lookupKey e "top_domains" = some (.arr (l.take 3)))
          ∧ (lookupKey f "common_domains" = none →
              lookupKey e "top_domains" = some (.arr []))
          ∧ lookupKey e "last_seen" = some (pyGetD f "added" (.str "Unknown")) := by
  have hm : (sortDevices devs).mapM (fun p => routing_entry p.1 p.2) = .ok entries := hok
  have hf2 := except_mapM_forall₂ (fun p : String × JValue => routing_entry p.1 p.2)
    (sortDevices devs) entries hm
  refine ⟨?_, ?_, ?_⟩
  · rw [← hf2.length_eq]
    exact List.length_insertionSort _ _
  · have hsorted : List.Pairwise devLe (sortDevices devs) :=
      List.sorted_insertionSort devLe devs
    refine forall₂_pairwise hf2 hsorted ?_
    intro a b x y hax hby hab s1 s2 hs1 hs2
    rw [routing_entry_ok_ip a.1 a.2 x hax] at hs1
    rw [routing_entry_ok_ip b.1 b.2 y hby] at hs2
    injection hs1 with hs1'
    injection hs1' with hs1''
    injection hs2 with hs2'
    injection hs2' with hs2''
    subst hs1''
    subst hs2''
    exact hab
  · intro ip f hmem
    have hmem' : (ip, JValue.obj f) ∈ sortDevices devs := by
      simp [sortDevices, hmem]
    obtain ⟨e, he, hre⟩ := forall₂_mem_left hf2 _ hmem'
    exact ⟨e, he, routing_entry_fields ip f e hre⟩

theorem generate_routing_table_spec_witness :
    generate_routing_table
        [("192.168.1.9", JValue.obj
            [("name", JValue.str "PC"), ("added", JValue.str "2024-01-01"),
             ("query_count", JValue.num 3),
             ("common_domains", JValue.arr
               [JValue.str "a.com", JValue.str "b.com", JValue.str "c.com",
                JValue.str "d.com"])]),
         ("192.168.1.10", JValue.obj [("name", JValue.str "TV")])]
      = .ok
        [[("ip", JValue.str "192.168.1.10"), ("name", JValue.str "TV"),
          ("type", JValue.str "Unknown"), ("category", JValue.str "Unknown"),
          ("activity", JValue.num 0), ("top_domains", JValue.arr []),
          ("last_seen", JValue.str "Unknown")],
         [("ip", JValue.str "192.168.1.9"), ("name", JValue.str "PC"),
          ("type", JValue.str "Unknown"), ("category", JValue.str "Unknown"),
          ("activity", JValue.num 3),
          ("top_domains", JValue.arr
            [JValue.str "a.com", JValue.str "b.com", JValue.str "c.com"]),
          ("last_seen", JValue.str "2024-01-01")]]
    ∧ ([[("ip", JValue.str "192.168.1.10"), ("name", JValue.str "TV"),
          ("type", JValue.str "Unknown"), ("category", JValue.str "Unknown"),
          ("activity", JValue.num 0), ("top_domains", JValue.arr []),
          ("last_seen", JValue.str "Unknown")],
         [("ip", JValue.str "192.168.1.9"), ("name", JValue.str "PC"),
          ("type", JValue.str "Unknown"), ("category", JValue.str "Unknown"),
          ("activity", JValue.num 3),
          ("top_domains", JValue.arr
            [JValue.str "a.com", JValue.str "b.com", JValue.str "c.com"]),
          ("last_seen", JValue.str "2024-01-01")]] : List JObj).length
      = ([("192.168.1.9", JValue.obj
            [("name", JValue.str "PC"), ("added", JValue.str "2024-01-01"),
             ("query_count", JValue.num 3),
             ("common_domains", JValue.arr
               [JValue.str "a.com", JValue.str "b.com", JValue.str "c.com",
                JValue.str "d.com"])]),
          ("192.168.1.10", JValue.obj [("name", JValue.str "TV")])] : JObj).length :=
  ⟨rfl,
    (generate_routing_table_spec
      [("192.168.1.9", JValue.obj
          [("name", JValue.str "PC"), ("added", JValue.str "2024-01-01"),
           ("query_count", JValue.num 3),
           ("common_domains", JValue.arr
             [JValue.str "a.com", JValue.str "b.com", JValue.str "c.com",
              JValue.str "d.com"])]),
       ("192.168.1.10", JValue.obj [("name", JValue.str "TV")])]
      [[("ip", JValue.str "192.168.1.10"), ("name", JValue.str "TV"),
        ("type", JValue.str "Unknown"), ("category", JValue.str "Unknown"),
        ("activity", JValue.num 0), ("top_domains", JValue.arr []),
        ("last_seen", JValue.str "Unknown")],
       [("ip", JValue.str "192.168.1.9"), ("name", JValue.str "PC"),
        ("type", JValue.str "Unknown"), ("category", JValue.str "Unknown"),
        ("activity", JValue.num 3),
        ("top_domains", JValue.arr
          [JValue.str "a.com", JValue.str "b.com", JValue.str "c.com"]),
        ("last_seen", JValue.str "2024-01-01")]] rfl).1⟩
